import Mathlib

/-!
# Verification of `app/utils/sitemap.server.ts`

A shallow embedding of the sitemap generator of the `epic-stack-with-sitemap`
repository.  The TypeScript module walks the Remix route manifest, lets each
route opt in or out of the sitemap or supply custom entries, validates and
deduplicates the entries, and serializes the result as sitemap XML.

Modelling conventions:
* JavaScript objects with a fixed shape become structures with `Option` fields
  (`none` = the property is absent / `undefined`).
* JavaScript string/number truthiness is embedded explicitly (`strTruthy`,
  and `q ≠ 0` for numbers).
* The manifest (`remixContext.manifest.routes`) and the module map
  (`remixContext.routeModules`) are association lists in object-key order;
  lookup returns the first binding.
* JavaScript numbers occurring here (sitemap priorities) are modelled as exact
  rationals: every numeric literal in the source denotes a distinct double, and
  only equality comparisons with those literals occur.
* The `while (parent)` ancestor walk of `defaultGetSitemapHandle` can diverge
  on a cyclic manifest, so it is embedded with explicit fuel: an outer `none`
  result means the fuel was exhausted (the JS loop would still be running).
* `console.warn` diagnostics that the claims talk about are collected in a
  `Warning` list; the entry functions' async-ness is irrelevant to the values
  computed (all results are awaited) and is not modelled.
-/

set_option autoImplicit false

namespace Sitemap

/-- A JavaScript `Date`, identified by its epoch-milliseconds value. -/
structure Date where
  millis : Int
deriving DecidableEq, Repr

/-- One entry of `remixContext.manifest.routes`: the route's own path segment
(`none` = property absent; the empty string is falsy in JS and treated like
absence wherever the source tests truthiness), its index-route flag, and its
parent's route id. -/
structure ManifestEntry where
  path : Option String
  index : Bool
  parentId : Option String
deriving DecidableEq, Repr

/-- A validated sitemap entry (the parse result of `SitemapEntrySchema`):
`route` is required, the remaining properties are optional.  `changefreq`
stays a `String` (validation restricts it to the seven enum words) and
`priority` an exact rational (validation restricts it to the eleven literals
`0.0 … 1.0`). -/
structure SitemapEntry where
  route : String
  lastmod : Option Date
  changefreq : Option String
  priority : Option Rat
deriving DecidableEq, Repr

/-- A raw candidate entry as a route's `getSitemapEntries` function may return
it, before `SitemapEntrySchema` validation: `route` may be missing, and
`changefreq`/`priority` may hold values outside the schema's enums. -/
structure RawEntry where
  route : Option String
  lastmod : Option Date
  changefreq : Option String
  priority : Option Rat
deriving DecidableEq, Repr

/-- An element of an array returned by a `getSitemapEntries` function:
either `null` or a candidate entry. -/
inductive RawElem where
  | null
  | entry (e : RawEntry)
deriving DecidableEq, Repr

/-- The value returned by a route's `getSitemapEntries` function (after
awaiting): `null`, a single entry, or an array possibly containing `null`s. -/
inductive RawResult where
  | null
  | single (e : RawEntry)
  | array (es : List RawElem)
deriving DecidableEq, Repr

/-- The state of the `getSitemapEntries` property on a route's `handle`
object: absent (`undefined`), explicitly `null` (the opt-out signal), or a
declared function.  A declared function is modelled by the value it returns
for the one request under consideration (the source invokes it once per
generation and only consumes its result). -/
inductive GetEntriesDecl where
  | undeclared
  | explicitNull
  | declared (result : RawResult)
deriving DecidableEq, Repr

/-- The raw `handle` export of a route module, as seen before
`HandleSchema.safeParse`: absent, an object with its `getSitemapEntries`
property, or a value of some other shape that fails the schema (such a value
is never `null`-valued at `getSitemapEntries`, since the schema only
constrains that one property and accepts `null` for it). -/
inductive JsHandle where
  | undefined
  | obj (g : GetEntriesDecl)
  | invalid
deriving DecidableEq, Repr

/-- A route module: whether it has a `default` export (a renderable UI
component; its absence makes the route a resource route) and its raw
`handle`. -/
structure RouteModule where
  hasDefault : Bool
  handle : JsHandle
deriving DecidableEq, Repr

/-- The slice of the Remix `EntryContext` the generator reads: the manifest
and the route-module map, both keyed by route id.  The framework keys
`routeModules` identically to `manifest.routes`. -/
structure RemixContext where
  routes : List (String × ManifestEntry)
  routeModules : List (String × RouteModule)
deriving Repr

/-- Diagnostics the generator emits via `console.warn`, tagged with the data
the corresponding message interpolates.  (The resolver's own
`Could not find a manifest entry` warning at source line 86 is a diagnostic
with no effect on any computed value and is not tracked.) -/
inductive Warning where
  | invalidEntries (id : String)
  | duplicateRoute (route : String) (entry existing : SitemapEntry)
deriving DecidableEq, Repr

/-- `remixContext.manifest.routes[id]`. -/
def lookupRoute (ctx : RemixContext) (id : String) : Option ManifestEntry :=
  (ctx.routes.find? (fun x => x.1 == id)).map (·.2)

/-- `remixContext.routeModules[id]`. -/
def lookupModule (ctx : RemixContext) (id : String) : Option RouteModule :=
  (ctx.routeModules.find? (fun x => x.1 == id)).map (·.2)

/-- JS truthiness of an optional string: `undefined` and `''` are falsy. -/
def strTruthy : Option String → Bool
  | some s => s != ""
  | none => false

/-- `removeTrailingSlash` (source lines 56–58): drop one trailing `'/'`.
`s.endsWith('/')` for the one-character suffix is the last-character test,
and `s.slice(0, -1)` drops the last character; both are taken on the
character list. -/
def removeTrailingSlash (s : String) : String :=
  if s.data.getLast? == some '/' then String.mk s.data.dropLast else s

/-- `parentId ? remixContext.manifest.routes[parentId] : null`: look the
parent up only when `parentId` is truthy. -/
def parentOf (ctx : RemixContext) : Option String → Option ManifestEntry
  | some s => if s == "" then none else lookupRoute ctx s
  | none => none

/-- Whether `remixContext.routeModules[id].handle?.getSitemapEntries === null`:
`true` exactly when the handle is an object whose `getSitemapEntries` is the
literal `null`. -/
def JsHandle.optedOut : JsHandle → Bool
  | .obj .explicitNull => true
  | _ => false

/-- The opt-out test for one ancestor id.  When the id is missing from
`routeModules` this returns `false`; the framework keys `routeModules` and
`manifest.routes` identically, so in the source the lookup never fails where
this test runs. -/
def isOptOutId (ctx : RemixContext) (id : String) : Bool :=
  match lookupModule ctx id with
  | some m => m.handle.optedOut
  | none => false

/-- The guard `parentId && routeModules[parentId].handle?.getSitemapEntries
=== null` of the ancestor loop (source lines 102–105). -/
def optOutGuard (ctx : RemixContext) : Option String → Bool
  | some s => (s != "") && isOptOutId ctx s
  | none => false

/-- The parent's contribution to the path: `parent.path ?
removeTrailingSlash(parent.path) : ''` (source line 111). -/
def segOf (p : ManifestEntry) : String :=
  if strTruthy p.path then removeTrailingSlash (p.path.getD "") else ""

/-- The route's own starting segment (source lines 92–99): its
trailing-slash-normalized path if truthy, `''` for an index route, and no
value otherwise (the resolver returns `null`). -/
def path0OfEntry (me : ManifestEntry) : Option String :=
  if strTruthy me.path then some (removeTrailingSlash (me.path.getD ""))
  else if me.index then some ""
  else none

/-- The `while (parent)` loop of `defaultGetSitemapHandle` (source lines
101–115), with fuel.  Returns `none` when the fuel runs out (the JS loop
would still be running), `some none` when an ancestor's opt-out aborts the
walk, and `some (some path)` with the accumulated path once the parent chain
is exhausted. -/
def walk (ctx : RemixContext) (fuel : Nat) (pid : Option String) (path : String) :
    Option (Option String) :=
  match parentOf ctx pid with
  | none => some (some path)
  | some p =>
    match fuel with
    | 0 => none
    | fuel + 1 =>
      if optOutGuard ctx pid then some none
      else walk ctx fuel p.parentId (segOf p ++ "/" ++ path)

/-- `defaultGetSitemapHandle` (source lines 80–123), with fuel for the
ancestor walk.  `none` = the walk ran out of fuel; `some none` = the function
returns `null`; `some (some e)` = it returns the single entry `e`. -/
def defaultGetSitemapHandle (ctx : RemixContext) (fuel : Nat) (id : String) :
    Option (Option SitemapEntry) :=
  match lookupRoute ctx id with
  | none => some none
  | some me =>
    match path0OfEntry me with
    | none => some none
    | some path0 =>
      match walk ctx fuel me.parentId path0 with
      | none => none
      | some none => some none
      | some (some path) =>
        if path.data.contains ':' then some none
        else if id == "root" then some none
        else some (some ⟨removeTrailingSlash path, none, none, none⟩)

/-! ## Deep equality (`isEqual`, source lines 60–78)

`isEqual` compares `Object.keys` of both objects and recurses where both
values have `typeof 'object'`.  On validated sitemap entries the only object
values are `Date`s, whose own enumerable key set is empty, so the recursive
call on two `Date`s compares two empty key lists and returns `true`
regardless of the timestamps. -/

/-- The universe of JS property values occurring on a sitemap-entry object:
`undefined` (absent property), a string, a number, or a `Date` object. -/
inductive JsValue where
  | undefined
  | str (s : String)
  | num (q : Rat)
  | date (d : Date)
deriving DecidableEq, Repr

/-- Property read `obj[key]` on a sitemap-entry object. -/
def jsGet (e : SitemapEntry) (key : String) : JsValue :=
  if key == "route" then .str e.route
  else if key == "lastmod" then
    match e.lastmod with
    | some d => .date d
    | none => .undefined
  else if key == "changefreq" then
    match e.changefreq with
    | some c => .str c
    | none => .undefined
  else if key == "priority" then
    match e.priority with
    | some q => .num q
    | none => .undefined
  else .undefined

/-- `Object.keys` of a sitemap-entry object: the properties that are present
(in schema-shape order; `isEqual` is insensitive to the order). -/
def jsKeys (e : SitemapEntry) : List String :=
  "route" ::
    ((if e.lastmod.isSome then ["lastmod"] else []) ++
      (if e.changefreq.isSome then ["changefreq"] else []) ++
      (if e.priority.isSome then ["priority"] else []))

/-- One comparison step of `isEqual`: both values of `typeof 'object'`
(here: both `Date`s) recurse over their empty key sets and come out `true`;
any other pair is compared with `!==`. -/
def valEq : JsValue → JsValue → Bool
  | .date _, .date _ => true
  | .str a, .str b => a == b
  | .num a, .num b => a == b
  | .undefined, .undefined => true
  | _, _ => false

/-- `isEqual` (source lines 60–78), specialized to sitemap-entry objects. -/
def isEqual (e1 e2 : SitemapEntry) : Bool :=
  (jsKeys e1).length == (jsKeys e2).length &&
    (jsKeys e1).all fun k => valEq (jsGet e1 k) (jsGet e2 k)

/-! ## `Date.prototype.toISOString` (JS built-in, used at source line 132) -/

/-- Left-pad a numeral to the given width with zeros. -/
def padZeros (width : Nat) (n : Nat) : String :=
  let s := toString n
  String.mk (List.replicate (width - s.length) '0') ++ s

/-- Convert a day count relative to 1970-01-01 to a (year, month, day)
civil date (proleptic Gregorian). -/
def civilFromDays (z0 : Int) : Int × Nat × Nat :=
  let z := z0 + 719468
  let era := (if 0 ≤ z then z else z - 146096) / 146097
  let doe := (z - era * 146097).toNat
  let yoe := (doe - doe / 1460 + doe / 36524 - doe / 146096) / 365
  let doy := doe - (365 * yoe + yoe / 4 - yoe / 100)
  let mp := (5 * doy + 2) / 153
  let d := doy - (153 * mp + 2) / 5 + 1
  let m := if mp < 10 then mp + 3 else mp - 9
  (era * 400 + yoe + (if m ≤ 2 then 1 else 0), m, d)

/-- The ISO-8601 rendering `toISOString` produces (UTC, millisecond
precision).  Years outside `0…9999` use JS's expanded form only loosely:
the claims never depend on the rendered text. -/
def Date.toISOString (dt : Date) : String :=
  let days := Int.fdiv dt.millis 86400000
  let msOfDay := (dt.millis - days * 86400000).toNat
  let (y, m, d) := civilFromDays days
  let yearStr := if 0 ≤ y then padZeros 4 y.toNat else "-" ++ padZeros 6 (-y).toNat
  yearStr ++ "-" ++ padZeros 2 m ++ "-" ++ padZeros 2 d ++ "T" ++
    padZeros 2 (msOfDay / 3600000) ++ ":" ++
    padZeros 2 (msOfDay / 60000 % 60) ++ ":" ++
    padZeros 2 (msOfDay / 1000 % 60) ++ "." ++
    padZeros 3 (msOfDay % 1000) ++ "Z"

/-! ## Schema validation (source lines 6–33, applied at lines 147 and 175) -/

/-- The `changefreq` enum of `SitemapEntrySchema`. -/
def changefreqValues : List String :=
  ["always", "hourly", "daily", "weekly", "monthly", "yearly", "never"]

/-- The eleven `priority` literals of `SitemapEntrySchema` (`0.0`, `0.1`,
…, `0.9`, `1.0`). -/
def priorityValues : List Rat :=
  [0, mkRat 1 10, mkRat 2 10, mkRat 3 10, mkRat 4 10, mkRat 5 10,
    mkRat 6 10, mkRat 7 10, mkRat 8 10, mkRat 9 10, 1]

/-- `SitemapEntrySchema.safeParse` on one candidate entry: `route` must be a
string, `changefreq` (when present) one of the enum words, `priority` (when
present) one of the eleven literals. -/
def parseEntry (e : RawEntry) : Option SitemapEntry :=
  match e.route with
  | none => none
  | some r =>
    if (match e.changefreq with
        | some c => changefreqValues.contains c
        | none => true) &&
       (match e.priority with
        | some q => priorityValues.contains q
        | none => true)
    then some ⟨r, e.lastmod, e.changefreq, e.priority⟩
    else none

/-- `SitemapEntriesSchema.safeParse` on the normalized array (the `nullable`
of the schema applies to the array as a whole, so a `null` **element** fails
the parse). -/
def parseEntries : List RawElem → Option (List SitemapEntry)
  | [] => some []
  | .null :: _ => none
  | .entry e :: rest =>
    match parseEntry e, parseEntries rest with
    | some v, some vs => some (v :: vs)
    | _, _ => none

/-- `HandleSchema.safeParse(mod.handle)` followed by
`handleResult.data?.getSitemapEntries`: an absent handle parses to
`undefined` (so the property reads as `undefined`), an object handle parses
to its `getSitemapEntries` state, and any other shape fails the schema
(`none`). -/
def parseHandle : JsHandle → Option GetEntriesDecl
  | .undefined => some .undeclared
  | .obj g => some g
  | .invalid => none

/-! ## The per-route collector (source lines 141–182) -/

/-- Whether the parsed `getSitemapEntries` is the JS `undefined` (the falsy
case of `!routeGetSitemapEntries` once `null` has been ruled out). -/
def GetEntriesDecl.isUndeclared : GetEntriesDecl → Bool
  | .undeclared => true
  | _ => false

/-- Rebuild the raw object a validated entry denotes (the default resolver's
return value `{ route }` flows through `SitemapEntriesSchema` like any
custom result). -/
def rawOfEntry (e : SitemapEntry) : RawEntry :=
  ⟨some e.route, e.lastmod, e.changefreq, e.priority⟩

/-- `Array.isArray(rawEntries) ? rawEntries : [rawEntries]` for a non-null
result (source lines 172–174). -/
def asArray : RawResult → List RawElem
  | .null => []
  | .single e => [.entry e]
  | .array es => es

/-- The body of the `Object.entries(remixContext.routeModules).map` callback
(source lines 142–182) for one route.  The outer `none` propagates fuel
exhaustion of the default resolver; otherwise the result is the callback's
return value (`none` = it returned `null`) paired with the warnings it
logged. -/
def processRoute (ctx : RemixContext) (fuel : Nat) (id : String)
    (mod : RouteModule) : Option (Option (List SitemapEntry) × List Warning) :=
  if id == "root" then some (none, [])
  else
    match parseHandle mod.handle with
    | none => some (none, [])
    | some .explicitNull => some (none, [])
    | some decl =>
      if decl.isUndeclared && !mod.hasDefault then some (none, [])
      else
        let raw? : Option RawResult :=
          match decl with
          | .declared r => some r
          | _ =>
            (defaultGetSitemapHandle ctx fuel id).map fun res =>
              match res with
              | some e => .single (rawOfEntry e)
              | none => .null
        match raw? with
        | none => none
        | some .null => some (none, [])
        | some r =>
          match parseEntries (asArray r) with
          | none => some (none, [.invalidEntries id])
          | some es => some (some es, [])

/-- The `Promise.all` + `.flatMap(z => z).filter(Boolean)` stage (source
lines 139–187) over an explicit module list: per-route results are
concatenated in order, `null` results contribute nothing, and warnings are
collected alongside.  `none` propagates fuel exhaustion. -/
def collectRawList (ctx : RemixContext) (fuel : Nat) :
    List (String × RouteModule) → Option (List SitemapEntry × List Warning)
  | [] => some ([], [])
  | (id, mod) :: rest =>
    match processRoute ctx fuel id mod, collectRawList ctx fuel rest with
    | some (es?, ws), some (es', ws') => some ((es?.getD []) ++ es', ws ++ ws')
    | _, _ => none

/-- `rawSitemapEntries` with its warnings. -/
def collectRaw (ctx : RemixContext) (fuel : Nat) :
    Option (List SitemapEntry × List Warning) :=
  collectRawList ctx fuel ctx.routeModules

/-! ## Deduplication (source lines 189–204) -/

/-- One iteration of the dedup loop: look for an already-accepted entry with
the same `route`; append when there is none, otherwise keep the accepted
list unchanged and warn when the two entries are not `isEqual`. -/
def dedupStep (acc : List SitemapEntry × List Warning) (entry : SitemapEntry) :
    List SitemapEntry × List Warning :=
  match acc.1.find? (fun e => e.route == entry.route) with
  | some existing =>
    if isEqual existing entry then acc
    else (acc.1, acc.2 ++ [.duplicateRoute entry.route entry existing])
  | none => (acc.1 ++ [entry], acc.2)

/-- The full dedup pass: `sitemapEntries` and the duplicate warnings. -/
def dedup (l : List SitemapEntry) : List SitemapEntry × List Warning :=
  l.foldl dedupStep ([], [])

/-! ## XML serialization (source lines 125–137 and 206–215) -/

/-- `${lastmod ? `<lastmod>...</lastmod>` : ''}` (source line 132): a `Date`
object is always truthy. -/
def lastmodFrag (e : SitemapEntry) : String :=
  match e.lastmod with
  | some d => "<lastmod>" ++ d.toISOString ++ "</lastmod>"
  | none => ""

/-- `${changefreq ? `<changefreq>...</changefreq>` : ''}` (source line 133):
string truthiness, so an empty string would also be omitted. -/
def changefreqFrag (e : SitemapEntry) : String :=
  match e.changefreq with
  | some c => if c == "" then "" else "<changefreq>" ++ c ++ "</changefreq>"
  | none => ""

/-- JS number-to-string coercion, exact on the schema's eleven priority
literals (the only values that reach it after validation). -/
def jsNumToString (q : Rat) : String :=
  if q = 0 then "0"
  else if q = mkRat 1 10 then "0.1"
  else if q = mkRat 2 10 then "0.2"
  else if q = mkRat 3 10 then "0.3"
  else if q = mkRat 4 10 then "0.4"
  else if q = mkRat 5 10 then "0.5"
  else if q = mkRat 6 10 then "0.6"
  else if q = mkRat 7 10 then "0.7"
  else if q = mkRat 8 10 then "0.8"
  else if q = mkRat 9 10 then "0.9"
  else if q = 1 then "1"
  else toString q

/-- `${priority ? `<priority>...</priority>` : ''}` (source line 134):
number truthiness, so the value `0` is falsy and the element is omitted even
when the `priority` property is present. -/
def priorityFrag (e : SitemapEntry) : String :=
  match e.priority with
  | some q => if q = 0 then "" else "<priority>" ++ jsNumToString q ++ "</priority>"
  | none => ""

/-- `getEntry` (source lines 128–137), after the template's `.trim()`. -/
def getEntry (domainUrl : String) (e : SitemapEntry) : String :=
  "<url>\n\t<loc>" ++ domainUrl ++ e.route ++ "</loc>\n\t" ++
    lastmodFrag e ++ "\n\t" ++ changefreqFrag e ++ "\n\t" ++
    priorityFrag e ++ "\n</url>"

/-- The fixed prologue of the document template (source lines 206–212),
after the final `.trim()`. -/
def xmlHeader : String :=
  "<?xml version=\"1.0\" encoding=\"UTF-8\"?>\n<urlset\n\txmlns=\"http://www.sitemaps.org/schemas/sitemap/0.9\"\n\txmlns:xsi=\"http://www.w3.org/2001/XMLSchema-instance\"\n\txsi:schemaLocation=\"http://www.sitemaps.org/schemas/sitemap/0.9 http://www.sitemaps.org/schemas/sitemap/0.9/sitemap.xsd\"\n>\n\t"

/-- The serialized document for a deduplicated entry list (source lines
206–215): `sitemapEntries.map(entry => getEntry(entry)).join('')` spliced
into the `urlset` template. -/
def xmlDoc (domainUrl : String) (entries : List SitemapEntry) : String :=
  xmlHeader ++ String.join (entries.map (getEntry domainUrl)) ++ "\n</urlset>"

/-- `getSitemapXml` (source lines 125–216): the document plus every warning
the generation logged.  `domainUrl` stands for `getDomainUrl(request)`, the
request's resolved origin (an external helper, opaque here).  `none`
propagates fuel exhaustion of the ancestor walk. -/
def getSitemapXml (domainUrl : String) (ctx : RemixContext) (fuel : Nat) :
    Option (String × List Warning) :=
  match collectRaw ctx fuel with
  | none => none
  | some (raw, ws) =>
    let (entries, ws2) := dedup raw
    some (xmlDoc domainUrl entries, ws ++ ws2)

/-! ## The ancestor chain

`rawAncestors` mirrors the parent traversal of the `while (parent)` loop but
merely records the visited `(id, manifest entry)` pairs, without the opt-out
check; it is the yardstick against which the loop is characterized. -/

/-- The ancestor chain above `pid`, from the immediate parent up to the root,
following exactly the lookups of the loop; `none` when the fuel runs out
before the chain is exhausted. -/
def rawAncestors (ctx : RemixContext) (fuel : Nat) (pid : Option String) :
    Option (List (String × ManifestEntry)) :=
  match parentOf ctx pid with
  | none => some []
  | some p =>
    match fuel with
    | 0 => none
    | fuel + 1 =>
      (rawAncestors ctx fuel p.parentId).map (fun l => (pid.getD "", p) :: l)

/-- The path the loop accumulates over an ancestor chain: each ancestor's
segment is prepended with a `'/'` separator, so the result is the segments
from the root down to the leaf joined by `'/'`. -/
def chainPath (l : List ManifestEntry) (path : String) : String :=
  l.foldl (fun acc p => segOf p ++ "/" ++ acc) path

theorem rawAncestors_of_parent_none {ctx : RemixContext} {pid : Option String}
    (fuel : Nat) (hp : parentOf ctx pid = none) :
    rawAncestors ctx fuel pid = some [] := by
  rw [rawAncestors.eq_def, hp]

theorem rawAncestors_of_parent_some {ctx : RemixContext} {pid : Option String}
    {p : ManifestEntry} (fuel : Nat) (hp : parentOf ctx pid = some p) :
    rawAncestors ctx (fuel + 1) pid =
      (rawAncestors ctx fuel p.parentId).map (fun l => (pid.getD "", p) :: l) := by
  rw [rawAncestors.eq_def, hp]

theorem walk_of_parent_none {ctx : RemixContext} {pid : Option String}
    (fuel : Nat) (path : String) (hp : parentOf ctx pid = none) :
    walk ctx fuel pid path = some (some path) := by
  rw [walk.eq_def, hp]

theorem walk_of_parent_some {ctx : RemixContext} {pid : Option String}
    {p : ManifestEntry} (fuel : Nat) (path : String)
    (hp : parentOf ctx pid = some p) :
    walk ctx (fuel + 1) pid path =
      if optOutGuard ctx pid then some none
      else walk ctx fuel p.parentId (segOf p ++ "/" ++ path) := by
  rw [walk.eq_def, hp]

theorem chainPath_nil (path : String) : chainPath [] path = path := rfl

theorem chainPath_cons (p : ManifestEntry) (l : List ManifestEntry) (path : String) :
    chainPath (p :: l) path = chainPath l (segOf p ++ "/" ++ path) := rfl

theorem parentOf_eq_some {ctx : RemixContext} {pid : Option String}
    {p : ManifestEntry} (h : parentOf ctx pid = some p) :
    ∃ s, pid = some s ∧ s ≠ "" ∧ lookupRoute ctx s = some p := by
  cases pid with
  | none => simp [parentOf] at h
  | some s =>
    cases hs : (s == "") with
    | true => simp [parentOf, hs] at h
    | false =>
      have hne : s ≠ "" := by
        intro hEq
        rw [hEq] at hs
        simp at hs
      exact ⟨s, rfl, hne, by simpa [parentOf, hs] using h⟩

/-- When no ancestor on the chain has opted out, the loop completes and
accumulates exactly the chain's segments around the starting path. -/
theorem walk_of_no_optOut {ctx : RemixContext} :
    ∀ (fuel : Nat) (pid : Option String) (l : List (String × ManifestEntry))
      (path : String),
    rawAncestors ctx fuel pid = some l →
    (∀ x ∈ l, isOptOutId ctx x.1 = false) →
    walk ctx fuel pid path = some (some (chainPath (l.map Prod.snd) path)) := by
  intro fuel
  induction fuel with
  | zero =>
    intro pid l path hraw hclean
    cases hp : parentOf ctx pid with
    | none =>
      rw [rawAncestors_of_parent_none 0 hp] at hraw
      obtain rfl : ([] : List (String × ManifestEntry)) = l :=
        Option.some.inj hraw
      rw [walk_of_parent_none 0 path hp]
      rfl
    | some p =>
      rw [rawAncestors.eq_def, hp] at hraw
      exact absurd hraw (by simp)
  | succ fuel ih =>
    intro pid l path hraw hclean
    cases hp : parentOf ctx pid with
    | none =>
      rw [rawAncestors_of_parent_none (fuel + 1) hp] at hraw
      obtain rfl : ([] : List (String × ManifestEntry)) = l :=
        Option.some.inj hraw
      rw [walk_of_parent_none (fuel + 1) path hp]
      rfl
    | some p =>
      obtain ⟨s, hpid, hs, _⟩ := parentOf_eq_some hp
      rw [rawAncestors_of_parent_some fuel hp] at hraw
      obtain ⟨l', hl', hcons⟩ := Option.map_eq_some'.mp hraw
      subst hcons
      have hhead : isOptOutId ctx (pid.getD "") = false :=
        hclean _ (List.mem_cons_self _ _)
      have hguard : optOutGuard ctx pid = false := by
        subst hpid
        simp only [Option.getD_some] at hhead
        simp [optOutGuard, hhead]
      have hrest : ∀ x ∈ l', isOptOutId ctx x.1 = false := fun x hx =>
        hclean x (List.mem_cons_of_mem _ hx)
      rw [walk_of_parent_some fuel path hp, hguard, if_neg (by simp),
        List.map_cons, chainPath_cons]
      exact ih p.parentId l' (segOf p ++ "/" ++ path) hl' hrest

/-- When some ancestor on the chain has opted out, the loop aborts with
`null` (the `some none` outcome). -/
theorem walk_of_optOut {ctx : RemixContext} :
    ∀ (fuel : Nat) (pid : Option String) (l : List (String × ManifestEntry))
      (path : String),
    rawAncestors ctx fuel pid = some l →
    l.any (fun x => isOptOutId ctx x.1) = true →
    walk ctx fuel pid path = some none := by
  intro fuel
  induction fuel with
  | zero =>
    intro pid l path hraw hany
    cases hp : parentOf ctx pid with
    | none =>
      rw [rawAncestors_of_parent_none 0 hp] at hraw
      obtain rfl : ([] : List (String × ManifestEntry)) = l :=
        Option.some.inj hraw
      simp at hany
    | some p =>
      rw [rawAncestors.eq_def, hp] at hraw
      exact absurd hraw (by simp)
  | succ fuel ih =>
    intro pid l path hraw hany
    cases hp : parentOf ctx pid with
    | none =>
      rw [rawAncestors_of_parent_none (fuel + 1) hp] at hraw
      obtain rfl : ([] : List (String × ManifestEntry)) = l :=
        Option.some.inj hraw
      simp at hany
    | some p =>
      obtain ⟨s, hpid, hs, _⟩ := parentOf_eq_some hp
      rw [rawAncestors_of_parent_some fuel hp] at hraw
      obtain ⟨l', hl', hcons⟩ := Option.map_eq_some'.mp hraw
      subst hcons
      cases hhead : isOptOutId ctx (pid.getD "") with
      | true =>
        have hguard : optOutGuard ctx pid = true := by
          subst hpid
          simp only [Option.getD_some] at hhead
          simpa [optOutGuard, hhead] using hs
        rw [walk_of_parent_some fuel path hp, hguard, if_pos rfl]
      | false =>
        have hguard : optOutGuard ctx pid = false := by
          subst hpid
          simp only [Option.getD_some] at hhead
          simp [optOutGuard, hhead]
        have hrest : l'.any (fun x => isOptOutId ctx x.1) = true := by
          simp only [List.any_cons, hhead, Bool.false_or] at hany
          exact hany
        rw [walk_of_parent_some fuel path hp, hguard, if_neg (by simp)]
        exact ih p.parentId l' (segOf p ++ "/" ++ path) hl' hrest

/-! ## Properties of `isEqual` -/

theorem valEq_refl (v : JsValue) : valEq v v = true := by
  cases v <;> simp [valEq]

theorem isEqual_refl (e : SitemapEntry) : isEqual e e = true := by
  simp only [isEqual, beq_self_eq_true, Bool.true_and, List.all_eq_true]
  exact fun k _ => valEq_refl _

theorem jsGet_route (e : SitemapEntry) : jsGet e "route" = .str e.route := rfl

theorem jsGet_lastmod (e : SitemapEntry) :
    jsGet e "lastmod" =
      (match e.lastmod with | some d => .date d | none => .undefined) := rfl

theorem jsGet_changefreq (e : SitemapEntry) :
    jsGet e "changefreq" =
      (match e.changefreq with | some c => .str c | none => .undefined) := rfl

theorem jsGet_priority (e : SitemapEntry) :
    jsGet e "priority" =
      (match e.priority with | some q => .num q | none => .undefined) := rfl

/-- A single differing property suffices to make `isEqual` come out
`false`. -/
theorem isEqual_false_of_key {e1 e2 : SitemapEntry} (k : String)
    (hk : k ∈ jsKeys e1)
    (hv : valEq (jsGet e1 k) (jsGet e2 k) = false) :
    isEqual e1 e2 = false := by
  have hall : ((jsKeys e1).all fun k => valEq (jsGet e1 k) (jsGet e2 k)) = false :=
    List.all_eq_false.mpr ⟨k, hk, by simp [hv]⟩
  rw [isEqual, hall, Bool.and_false]

/-- Two entries whose `priority` properties differ are never `isEqual`:
either their key counts differ, or some key present on the first compares
unequal (the `priority` values themselves, or a compensating key that is
absent on the other entry). -/
theorem isEqual_false_of_priority_ne {e1 e2 : SitemapEntry}
    (hp : e1.priority ≠ e2.priority) : isEqual e1 e2 = false := by
  cases h1 : e1.priority with
  | some a =>
    refine isEqual_false_of_key "priority" (by simp [jsKeys, h1]) ?_
    rw [jsGet_priority, jsGet_priority, h1]
    cases h2 : e2.priority with
    | some b =>
      have hab : a ≠ b := fun hEq => hp (by rw [h1, h2, hEq])
      simp [valEq, hab]
    | none => simp [valEq]
  | none =>
    cases h2 : e2.priority with
    | none => exact absurd (h1.trans h2.symm) hp
    | some b =>
      obtain ⟨r1, l1, c1, p1⟩ := e1
      obtain ⟨r2, l2, c2, p2⟩ := e2
      simp only at h1 h2
      subst h1
      subst h2
      cases l1 <;> cases c1 <;> cases l2 <;> cases c2 <;>
        first
        | (refine isEqual_false_of_key "lastmod" ?_ ?_ <;>
            simp [jsKeys, jsGet_lastmod, valEq]
           done)
        | (refine isEqual_false_of_key "changefreq" ?_ ?_ <;>
            simp [jsKeys, jsGet_changefreq, valEq]
           done)
        | simp [isEqual, jsKeys]

/-- When the two entries present the same properties, the strings and
numbers agree, and both either have or lack `lastmod`, `isEqual` is `true` —
the `lastmod` timestamps themselves are never compared. -/
theorem isEqual_true_of_fields {e1 e2 : SitemapEntry}
    (hr : e1.route = e2.route)
    (hl : e1.lastmod.isSome = e2.lastmod.isSome)
    (hc : e1.changefreq = e2.changefreq)
    (hp : e1.priority = e2.priority) :
    isEqual e1 e2 = true := by
  obtain ⟨r1, l1, c1, p1⟩ := e1
  obtain ⟨r2, l2, c2, p2⟩ := e2
  simp only at hr hl hc hp
  subst hr
  subst hc
  subst hp
  cases l1 <;> cases l2 <;> cases c1 <;> cases p1 <;>
    simp_all [isEqual, jsKeys, jsGet_route, jsGet_lastmod, jsGet_changefreq,
      jsGet_priority, valEq]

/-! ## Behavior of the dedup loop on a duplicate pair -/

theorem dedup_pair_of_isEqual {e1 e2 : SitemapEntry} (hr : e1.route = e2.route)
    (heq : isEqual e1 e2 = true) : dedup [e1, e2] = ([e1], []) := by
  simp [dedup, dedupStep, List.find?, hr, heq]

theorem dedup_pair_of_conflict {e1 e2 : SitemapEntry} (hr : e1.route = e2.route)
    (hne : isEqual e1 e2 = false) :
    dedup [e1, e2] = ([e1], [.duplicateRoute e2.route e2 e1]) := by
  simp [dedup, dedupStep, List.find?, hr, hne]

/-! ## String facts for the serializer -/

theorem append_ne_empty_left {s : String} (t : String) (h : s ≠ "") :
    s ++ t ≠ "" := by
  intro hEq
  apply h
  have hlen := congrArg String.length hEq
  rw [String.length_append,
    show ("" : String).length = 0 from rfl] at hlen
  have hs : s.length = 0 := by omega
  cases s with
  | mk data => cases data with
    | nil => rfl
    | cons c cs => simp [String.length] at hs

/-! ## Concrete route trees used as witnesses and counterexamples -/

/-- A pathless layout chain: `root` (pathless) → `layout` (pathless, not an
index route) → `idx` (an index route).  No module opts out. -/
def ctxA : RemixContext :=
  { routes := [("root", ⟨none, false, none⟩),
               ("layout", ⟨none, false, some "root"⟩),
               ("idx", ⟨none, true, some "layout"⟩)],
    routeModules := [("root", ⟨true, .undefined⟩),
                     ("layout", ⟨true, .undefined⟩),
                     ("idx", ⟨true, .undefined⟩)] }

/-- A static blog tree plus a dynamic route: `root` → `blog` (path `blog`)
→ `posts` (path `posts`), and `root` → `slug` (path `blog/:slug`). -/
def ctxB : RemixContext :=
  { routes := [("root", ⟨none, false, none⟩),
               ("blog", ⟨some "blog", false, some "root"⟩),
               ("posts", ⟨some "posts", false, some "blog"⟩),
               ("slug", ⟨some "blog/:slug", false, some "root"⟩)],
    routeModules := [("root", ⟨true, .undefined⟩),
                     ("blog", ⟨true, .undefined⟩),
                     ("posts", ⟨true, .undefined⟩),
                     ("slug", ⟨true, .undefined⟩)] }

/-- A tree whose middle route opts out by declaring
`handle.getSitemapEntries = null`: `root` → `admin` (path `admin`, opted
out) → `users` (path `users`). -/
def ctxC : RemixContext :=
  { routes := [("root", ⟨none, false, none⟩),
               ("admin", ⟨some "admin", false, some "root"⟩),
               ("users", ⟨some "users", false, some "admin"⟩)],
    routeModules := [("root", ⟨true, .undefined⟩),
                     ("admin", ⟨true, .obj .explicitNull⟩),
                     ("users", ⟨true, .undefined⟩)] }

/-- Whether a handle declares a custom entry function. -/
def hasCustom : JsHandle → Bool
  | .obj (.declared _) => true
  | _ => false

/-! ## The claims -/

/-- **C1** (counterexample).  In the pathless layout chain of `ctxA` the
default resolver succeeds — the manifest entry of `idx` exists, the chain
`layout`, `root` has no opt-out, and the resolved path `"//"` has no `':'` —
yet the returned route is `"/"`: it still ends with a trailing slash, and it
differs from the plain `'/'`-joined segments `"//"` (only one trailing slash
is removed). -/
theorem C1_counterexample :
    defaultGetSitemapHandle ctxA 3 "idx" =
      some (some ⟨"/", none, none, none⟩) ∧
    ("/" : String).data.getLast? = some '/' ∧
    rawAncestors ctxA 3 (some "layout") =
      some [("layout", ⟨none, false, some "root"⟩),
        ("root", ⟨none, false, none⟩)] ∧
    isOptOutId ctxA "layout" = false ∧
    isOptOutId ctxA "root" = false := by
  refine ⟨?_, ?_, ?_, ?_, ?_⟩ <;> decide

/-- **C1** (amended).  For a route whose manifest entry exists, whose
ancestor chain is free of opt-outs, and whose resolved path has no dynamic
segment, the default resolver returns exactly one entry whose route is
`removeTrailingSlash` of the ancestor segments (each trailing-slash
normalized) joined from root to leaf with `'/'` separators; a single final
slash is removed, but the result can still end in `'/'` when the joined
path ends in consecutive slashes. -/
theorem C1_amended_route_concatenation (ctx : RemixContext) (fuel : Nat)
    (id : String) (me : ManifestEntry) (path0 : String)
    (l : List (String × ManifestEntry))
    (hme : lookupRoute ctx id = some me)
    (hp0 : path0OfEntry me = some path0)
    (hraw : rawAncestors ctx fuel me.parentId = some l)
    (hclean : ∀ x ∈ l, isOptOutId ctx x.1 = false)
    (hdyn : (chainPath (l.map Prod.snd) path0).data.contains ':' = false)
    (hroot : id ≠ "root") :
    defaultGetSitemapHandle ctx fuel id =
      some (some ⟨removeTrailingSlash (chainPath (l.map Prod.snd) path0),
        none, none, none⟩) := by
  have hwalk := walk_of_no_optOut fuel me.parentId l path0 hraw hclean
  have hnotin : ':' ∉ (chainPath (l.map Prod.snd) path0).data := by
    simpa using hdyn
  simp [defaultGetSitemapHandle, hme, hp0, hwalk, hnotin, hroot]

theorem C1_amended_witness :
    defaultGetSitemapHandle ctxB 3 "posts" =
      some (some ⟨"/blog/posts", none, none, none⟩) := by
  have h := C1_amended_route_concatenation ctxB 3 "posts"
      ⟨some "posts", false, some "blog"⟩ "posts"
      [("blog", ⟨some "blog", false, some "root"⟩),
        ("root", ⟨none, false, none⟩)]
      (by decide) (by decide) (by decide) (by decide) (by decide) (by decide)
  exact h.trans (by decide)

/-- **C4**.  If any ancestor on a route's chain has a module whose
`getSitemapEntries` is the explicit `null`, the default resolver produces no
entry for the route. -/
theorem C4_ancestor_optout_inherited (ctx : RemixContext) (fuel : Nat)
    (id : String) (me : ManifestEntry) (l : List (String × ManifestEntry))
    (aid : String) (ame : ManifestEntry)
    (hme : lookupRoute ctx id = some me)
    (hraw : rawAncestors ctx fuel me.parentId = some l)
    (hmem : (aid, ame) ∈ l)
    (hopt : isOptOutId ctx aid = true) :
    defaultGetSitemapHandle ctx fuel id = some none := by
  have hany : l.any (fun x => isOptOutId ctx x.1) = true :=
    List.any_eq_true.mpr ⟨(aid, ame), hmem, hopt⟩
  cases hp0 : path0OfEntry me with
  | none => simp [defaultGetSitemapHandle, hme, hp0]
  | some path0 =>
    have hwalk := walk_of_optOut fuel me.parentId l path0 hraw hany
    simp [defaultGetSitemapHandle, hme, hp0, hwalk]

theorem C4_witness : defaultGetSitemapHandle ctxC 3 "users" = some none :=
  C4_ancestor_optout_inherited ctxC 3 "users"
    ⟨some "users", false, some "admin"⟩
    [("admin", ⟨some "admin", false, some "root"⟩),
      ("root", ⟨none, false, none⟩)]
    "admin" ⟨some "admin", false, some "root"⟩
    (by decide) (by decide) (by decide) (by decide)

/-- **C7**.  When a route's fully resolved path contains the dynamic-segment
marker `':'`, the default resolver returns `null`, whatever the other route
attributes are (in particular whether or not some ancestor also opted
out). -/
theorem C7_dynamic_route_no_entry (ctx : RemixContext) (fuel : Nat)
    (id : String) (me : ManifestEntry) (path0 : String)
    (l : List (String × ManifestEntry))
    (hme : lookupRoute ctx id = some me)
    (hp0 : path0OfEntry me = some path0)
    (hraw : rawAncestors ctx fuel me.parentId = some l)
    (hdyn : (chainPath (l.map Prod.snd) path0).data.contains ':' = true) :
    defaultGetSitemapHandle ctx fuel id = some none := by
  cases hany : l.any (fun x => isOptOutId ctx x.1) with
  | true =>
    have hwalk := walk_of_optOut fuel me.parentId l path0 hraw hany
    simp [defaultGetSitemapHandle, hme, hp0, hwalk]
  | false =>
    have hclean : ∀ x ∈ l, isOptOutId ctx x.1 = false := by
      intro x hx
      simpa using List.any_eq_false.mp hany x hx
    have hwalk := walk_of_no_optOut fuel me.parentId l path0 hraw hclean
    have hin : ':' ∈ (chainPath (l.map Prod.snd) path0).data := by
      simpa using hdyn
    simp [defaultGetSitemapHandle, hme, hp0, hwalk, hin]

theorem C7_witness : defaultGetSitemapHandle ctxB 3 "slug" = some none :=
  C7_dynamic_route_no_entry ctxB 3 "slug"
    ⟨some "blog/:slug", false, some "root"⟩ "blog/:slug"
    [("root", ⟨none, false, none⟩)]
    (by decide) (by decide) (by decide) (by decide)

/-- **C8**.  The root route never contributes an entry: the collector skips
the module with id `root` outright, and whenever the default resolver
completes for id `root` its result is `null`. -/
theorem C8_root_never_emitted :
    (∀ (ctx : RemixContext) (fuel : Nat) (mod : RouteModule),
      processRoute ctx fuel "root" mod = some (none, [])) ∧
    (∀ (ctx : RemixContext) (fuel : Nat) (r : Option SitemapEntry),
      defaultGetSitemapHandle ctx fuel "root" = some r → r = none) := by
  constructor
  · intro ctx fuel mod
    simp [processRoute]
  · intro ctx fuel r h
    unfold defaultGetSitemapHandle at h
    cases hme : lookupRoute ctx "root" with
    | none =>
      simp only [hme] at h
      exact (Option.some.inj h).symm
    | some me =>
      simp only [hme] at h
      cases hp0 : path0OfEntry me with
      | none =>
        simp only [hp0] at h
        exact (Option.some.inj h).symm
      | some path0 =>
        simp only [hp0] at h
        cases hw : walk ctx fuel me.parentId path0 with
        | none =>
          simp only [hw] at h
          cases h
        | some w =>
          simp only [hw] at h
          cases w with
          | none => exact (Option.some.inj h).symm
          | some path =>
            by_cases hc : path.data.contains ':' = true
            · simp only [hc, if_true] at h
              exact (Option.some.inj h).symm
            · simp only [hc, if_false, Bool.false_eq_true] at h
              rw [if_pos (by decide)] at h
              exact (Option.some.inj h).symm

theorem C8_witness :
    processRoute ctxA 1 "root" ⟨true, .undefined⟩ = some (none, []) ∧
    (none : Option SitemapEntry) = none :=
  ⟨C8_root_never_emitted.1 ctxA 1 ⟨true, .undefined⟩,
    C8_root_never_emitted.2 ctxA 3 none (by decide)⟩

/-- **C9**.  A resource route (no `default` export) whose handle declares no
custom entry function contributes nothing: the collector returns `null` for
it, with no warning. -/
theorem C9_resource_route_skipped (ctx : RemixContext) (fuel : Nat)
    (id : String) (mod : RouteModule)
    (hres : mod.hasDefault = false)
    (hnc : hasCustom mod.handle = false) :
    processRoute ctx fuel id mod = some (none, []) := by
  obtain ⟨hd, h⟩ := mod
  simp only at hres
  subst hres
  cases h with
  | undefined =>
    cases hid : (id == "root") <;>
      simp [processRoute, parseHandle, GetEntriesDecl.isUndeclared, hid]
  | invalid =>
    cases hid : (id == "root") <;>
      simp [processRoute, parseHandle, GetEntriesDecl.isUndeclared, hid]
  | obj g =>
    cases g with
    | undeclared =>
      cases hid : (id == "root") <;>
        simp [processRoute, parseHandle, GetEntriesDecl.isUndeclared, hid]
    | explicitNull =>
      cases hid : (id == "root") <;>
        simp [processRoute, parseHandle, GetEntriesDecl.isUndeclared, hid]
    | declared r => simp [hasCustom] at hnc

theorem C9_witness :
    processRoute ctxA 2 "reports" ⟨false, .undefined⟩ = some (none, []) :=
  C9_resource_route_skipped ctxA 2 "reports" ⟨false, .undefined⟩ rfl rfl

/-- **C2**.  On a pair of entries sharing a `route`: identical entries are
merged into the first with no warning; entries with differing `priority`
keep the first-seen one, drop the later one, and record a duplicate-route
warning carrying the conflicting route and both entries — the dedup pass
still returns a result either way. -/
theorem C2_dedup_conflict_policy (e1 e2 : SitemapEntry)
    (hroute : e1.route = e2.route) :
    (e1 = e2 → dedup [e1, e2] = ([e1], [])) ∧
    (e1.priority ≠ e2.priority →
      dedup [e1, e2] = ([e1], [.duplicateRoute e2.route e2 e1])) := by
  constructor
  · intro hEq
    subst hEq
    exact dedup_pair_of_isEqual rfl (isEqual_refl e1)
  · intro hp
    exact dedup_pair_of_conflict hroute (isEqual_false_of_priority_ne hp)

theorem C2_witness :
    dedup [⟨"/a", none, none, some (mkRat 5 10)⟩,
        ⟨"/a", none, none, some (mkRat 5 10)⟩] =
      ([⟨"/a", none, none, some (mkRat 5 10)⟩], []) ∧
    dedup [⟨"/a", none, none, some (mkRat 5 10)⟩,
        ⟨"/a", none, none, some (mkRat 6 10)⟩] =
      ([⟨"/a", none, none, some (mkRat 5 10)⟩],
        [.duplicateRoute "/a" ⟨"/a", none, none, some (mkRat 6 10)⟩
          ⟨"/a", none, none, some (mkRat 5 10)⟩]) := by
  constructor
  · exact (C2_dedup_conflict_policy _ _ rfl).1 rfl
  · exact (C2_dedup_conflict_policy ⟨"/a", none, none, some (mkRat 5 10)⟩
      ⟨"/a", none, none, some (mkRat 6 10)⟩ rfl).2 (by decide)

/-- **C10**.  Two entries that differ only in their `lastmod` timestamps
(both present, distinct) are `isEqual` — a `Date` has no enumerable own
properties, so the recursive comparison of the two dates holds vacuously —
and the dedup pass keeps the first and emits no warning. -/
theorem C10_lastmod_ignored_in_dedup (e1 e2 : SitemapEntry) (d1 d2 : Date)
    (h1 : e1.lastmod = some d1) (h2 : e2.lastmod = some d2) (_hd : d1 ≠ d2)
    (hr : e1.route = e2.route) (hc : e1.changefreq = e2.changefreq)
    (hp : e1.priority = e2.priority) :
    isEqual e1 e2 = true ∧ dedup [e1, e2] = ([e1], []) := by
  have heq : isEqual e1 e2 = true :=
    isEqual_true_of_fields hr (by simp [h1, h2]) hc hp
  exact ⟨heq, dedup_pair_of_isEqual hr heq⟩

theorem C10_witness :
    isEqual ⟨"/a", some ⟨0⟩, none, none⟩ ⟨"/a", some ⟨86400000⟩, none, none⟩ =
      true ∧
    dedup [⟨"/a", some ⟨0⟩, none, none⟩, ⟨"/a", some ⟨86400000⟩, none, none⟩] =
      ([⟨"/a", some ⟨0⟩, none, none⟩], []) :=
  C10_lastmod_ignored_in_dedup _ _ ⟨0⟩ ⟨86400000⟩ rfl rfl (by decide) rfl rfl
    rfl

/-- Per-route results compose: the collector over a concatenation is the
concatenation of entries and warnings. -/
theorem collectRawList_append (ctx : RemixContext) (fuel : Nat)
    (pre rest : List (String × RouteModule))
    (es1 es2 : List SitemapEntry) (ws1 ws2 : List Warning)
    (h1 : collectRawList ctx fuel pre = some (es1, ws1))
    (h2 : collectRawList ctx fuel rest = some (es2, ws2)) :
    collectRawList ctx fuel (pre ++ rest) = some (es1 ++ es2, ws1 ++ ws2) := by
  induction pre generalizing es1 ws1 with
  | nil =>
    simp only [collectRawList] at h1
    injection h1 with h1
    injection h1 with ha hb
    subst ha
    subst hb
    simpa using h2
  | cons x pre ih =>
    obtain ⟨id, mod⟩ := x
    cases hpr : processRoute ctx fuel id mod with
    | none => simp [collectRawList, hpr] at h1
    | some pr =>
      obtain ⟨es?, ws⟩ := pr
      cases hcl : collectRawList ctx fuel pre with
      | none => simp [collectRawList, hpr, hcl] at h1
      | some c =>
        obtain ⟨pes, pws⟩ := c
        simp only [collectRawList, hpr, hcl] at h1
        injection h1 with h1
        injection h1 with ha hb
        subst ha
        subst hb
        have hrec := ih pes pws hcl
        simp only [List.cons_append, collectRawList, hpr, List.append_eq]
        rw [hrec]
        simp [List.append_assoc]

/-- **C3**.  A route whose declared entry function returns a non-null result
failing schema validation contributes nothing but an `invalidEntries`
warning naming it; spliced anywhere into the module list, the surrounding
routes' entries and warnings are exactly preserved and the collector still
completes. -/
theorem C3_per_route_validation_isolation (ctx : RemixContext) (fuel : Nat)
    (id : String) (mod : RouteModule) (r : RawResult)
    (pre post : List (String × RouteModule))
    (espre espost : List SitemapEntry) (wspre wspost : List Warning)
    (hmod : mod.handle = .obj (.declared r))
    (hroot : id ≠ "root")
    (hnn : r ≠ .null)
    (hbad : parseEntries (asArray r) = none)
    (hpre : collectRawList ctx fuel pre = some (espre, wspre))
    (hpost : collectRawList ctx fuel post = some (espost, wspost)) :
    processRoute ctx fuel id mod = some (none, [.invalidEntries id]) ∧
    collectRawList ctx fuel (pre ++ (id, mod) :: post) =
      some (espre ++ espost, wspre ++ (.invalidEntries id :: wspost)) := by
  have hid : (id == "root") = false := by simpa using hroot
  have hproc : processRoute ctx fuel id mod = some (none, [.invalidEntries id]) := by
    obtain ⟨_hd, h⟩ := mod
    simp only at hmod
    subst hmod
    cases r with
    | null => exact absurd rfl hnn
    | single e =>
      simp [processRoute, hid, parseHandle, GetEntriesDecl.isUndeclared, hbad]
    | array es =>
      simp [processRoute, hid, parseHandle, GetEntriesDecl.isUndeclared, hbad]
  refine ⟨hproc, ?_⟩
  have hmid : collectRawList ctx fuel ((id, mod) :: post) =
      some (espost, .invalidEntries id :: wspost) := by
    simp [collectRawList, hproc, hpost]
  exact collectRawList_append ctx fuel pre ((id, mod) :: post) espre espost
    wspre (.invalidEntries id :: wspost) hpre hmid

/-- The module list of the C3 and C5 scenarios: `good` returns one valid
entry, `bad` returns an array containing an out-of-range priority. -/
def modGood : RouteModule :=
  ⟨true, .obj (.declared (.single ⟨some "/good", none, none, none⟩))⟩

def modBad : RouteModule :=
  ⟨true, .obj (.declared (.array
    [.entry ⟨some "/bad", none, none, some (mkRat 3 2)⟩]))⟩

theorem C3_witness :
    processRoute ctxA 1 "bad" modBad = some (none, [.invalidEntries "bad"]) ∧
    collectRawList ctxA 1 [("good", modGood), ("bad", modBad)] =
      some ([⟨"/good", none, none, none⟩], [.invalidEntries "bad"]) := by
  have h := C3_per_route_validation_isolation ctxA 1 "bad" modBad
      (.array [.entry ⟨some "/bad", none, none, some (mkRat 3 2)⟩])
      [("good", modGood)] [] [⟨"/good", none, none, none⟩] [] [] []
      rfl (by decide) (by decide) (by decide) (by decide) (by decide)
  exact ⟨h.1, h.2.trans (by decide)⟩

/-- **C5** (the claim describes the declared intent; the code disagrees).
An array result containing a `null` element fails
`SitemapEntriesSchema.safeParse` — the schema's `nullable` applies to the
array as a whole, not to its elements — so the entire route is discarded
with an `invalidEntries` warning, even though its non-null element is
individually valid; the `.filter(Boolean)` that was meant to drop the nulls
is never reached. -/
theorem C5_null_in_array_drops_route :
    processRoute ctxA 1 "gallery"
        ⟨true, .obj (.declared (.array
          [.entry ⟨some "/gallery", none, none, none⟩, .null]))⟩ =
      some (none, [.invalidEntries "gallery"]) ∧
    parseEntry ⟨some "/gallery", none, none, none⟩ =
      some ⟨"/gallery", none, none, none⟩ := by
  refine ⟨?_, ?_⟩ <;> decide

/-- **C6** (counterexample).  The entry `{route: "/about", priority: 0.0}`
passes schema validation (`0.0` is a legal priority) and has its `priority`
property present, yet the serializer emits no `<priority>` element for it:
the template's `${priority ? … : ''}` tests JS truthiness and `0` is
falsy. -/
theorem C6_counterexample :
    parseEntry ⟨some "/about", none, none, some 0⟩ =
      some ⟨"/about", none, none, some 0⟩ ∧
    (⟨"/about", none, none, some 0⟩ : SitemapEntry).priority.isSome = true ∧
    priorityFrag ⟨"/about", none, none, some 0⟩ = "" ∧
    getEntry "https://example.com" ⟨"/about", none, none, some 0⟩ =
      "<url>\n\t<loc>https://example.com/about</loc>\n\t\n\t\n\t\n</url>" := by
  refine ⟨?_, ?_, ?_, ?_⟩ <;> decide

/-- **C6** (amended).  Each serialized `<url>` block is `<loc>` (the
resolved origin concatenated with the entry's route) followed by the three
optional elements; `<lastmod>` and `<changefreq>` appear exactly when the
field is present, while `<priority>` appears exactly when the field is
present *and* nonzero (a present priority `0.0` is omitted by the
truthiness test). -/
theorem C6_amended_serialization (dU : String) (e : SitemapEntry)
    (hcf : ∀ c, e.changefreq = some c → c ≠ "") :
    getEntry dU e =
      "<url>\n\t<loc>" ++ dU ++ e.route ++ "</loc>\n\t" ++ lastmodFrag e ++
        "\n\t" ++ changefreqFrag e ++ "\n\t" ++ priorityFrag e ++
        "\n</url>" ∧
    (lastmodFrag e ≠ "" ↔ e.lastmod.isSome = true) ∧
    (changefreqFrag e ≠ "" ↔ e.changefreq.isSome = true) ∧
    (priorityFrag e ≠ "" ↔ e.priority.isSome = true ∧ e.priority ≠ some 0) := by
  refine ⟨rfl, ?_, ?_, ?_⟩
  · cases hl : e.lastmod with
    | none => simp [lastmodFrag, hl]
    | some d =>
      simp only [lastmodFrag, hl, Option.isSome_some, iff_true]
      exact append_ne_empty_left _ (append_ne_empty_left _ (by decide))
  · cases hc : e.changefreq with
    | none => simp [changefreqFrag, hc]
    | some c =>
      have hcb : (c == "") = false := by simpa using hcf c hc
      simp only [changefreqFrag, hc, hcb, Bool.false_eq_true, if_false,
        Option.isSome_some, iff_true]
      exact append_ne_empty_left _ (append_ne_empty_left _ (by decide))
  · cases hq : e.priority with
    | none => simp [priorityFrag, hq]
    | some q =>
      by_cases h0 : q = 0
      · subst h0
        simp [priorityFrag, hq]
      · simp only [priorityFrag, hq, if_neg h0, Option.isSome_some, true_and,
          ne_eq, Option.some.injEq, h0, not_false_eq_true, iff_true]
        exact append_ne_empty_left _ (append_ne_empty_left _ (by decide))

theorem C6_witness :
    getEntry "https://example.com"
        ⟨"/blog", some ⟨1704067200000⟩, some "weekly", some (mkRat 8 10)⟩ =
      "<url>\n\t<loc>https://example.com/blog</loc>\n\t<lastmod>2024-01-01T00:00:00.000Z</lastmod>\n\t<changefreq>weekly</changefreq>\n\t<priority>0.8</priority>\n</url>" ∧
    lastmodFrag ⟨"/blog", some ⟨1704067200000⟩, some "weekly",
      some (mkRat 8 10)⟩ ≠ "" ∧
    changefreqFrag ⟨"/blog", some ⟨1704067200000⟩, some "weekly",
      some (mkRat 8 10)⟩ ≠ "" ∧
    priorityFrag ⟨"/blog", some ⟨1704067200000⟩, some "weekly",
      some (mkRat 8 10)⟩ ≠ "" := by
  have h := C6_amended_serialization "https://example.com"
      ⟨"/blog", some ⟨1704067200000⟩, some "weekly", some (mkRat 8 10)⟩
      (by intro c hc; cases hc; decide)
  exact ⟨h.1.trans (by decide), h.2.1.mpr (by decide), h.2.2.1.mpr (by decide),
    h.2.2.2.mpr (by decide)⟩

end Sitemap
